import Mathlib

/-!
Verification development for the decipher-research-agent backend.

The definitions below are a shallow embedding of the Python code in
`backend/services/qdrant_service.py`, `backend/services/task_service.py`
and `backend/agents/topic_research_agent.py`.  Pure helpers become Lean
functions; stateful interaction with the external vector index and the
task/notebook repositories becomes explicit state passing; Python
exceptions become `Option`/`Except` results.  External collaborators
(the Qdrant client, the OpenAI embedding provider, the CrewAI agent
executors, the task/notebook repositories) are modelled through the
narrow interfaces the specification assigns to them.
-/

namespace Decipher

/-! ### Source Store: `qdrant_service.py`

`_chunk_text` tokenizes with Python's `str.split()` (split on runs of
whitespace, never producing empty tokens) and joins chunks with
`" ".join`.  `splitWSAux` is a faithful model of `str.split()`. -/

/-- Model of Python `str.split()` on a character list: skip whitespace,
accumulate maximal runs of non-whitespace characters (reversed in `acc`). -/
def splitWSAux : List Char → List Char → List String
  | [], acc => if acc = [] then [] else [String.mk acc.reverse]
  | c :: cs, acc =>
    if c.isWhitespace then
      if acc = [] then splitWSAux cs []
      else String.mk acc.reverse :: splitWSAux cs []
    else splitWSAux cs (c :: acc)

/-- Python `text.split()`. -/
def pySplit (s : String) : List String :=
  splitWSAux s.data []

/-- Python `" ".join(tokens)`. -/
def joinSpace (l : List String) : String :=
  String.intercalate " " l

/-- Python `range(0, n, step)` (for `step > 0`; empty when `n = 0`). -/
def pyRange (n step : Nat) : List Nat :=
  (List.range ((n + step - 1) / step)).map (fun k => k * step)

/-- `QdrantSourceStore._chunk_text`.  `none` models the `IndexError`
raised by `chunk_starts[-1]` when `chunk_starts` is empty (which happens
exactly when tokenization yields no tokens and the text is non-empty;
the `if not text` guard only catches the empty string). -/
def chunkText (chunkSize chunkOverlap : Nat) (text : String) : Option (List String) :=
  if text = "" then some []
  else
    let tokens := pySplit text
    let chunkStarts := pyRange tokens.length (chunkSize - chunkOverlap)
    let chunks := (chunkStarts.filter (fun i => i + chunkSize ≤ tokens.length)).map
      (fun i => joinSpace ((tokens.drop i).take chunkSize))
    match chunkStarts.getLast? with
    | none => none
    | some last =>
      if (tokens.drop last) ≠ [] then some (chunks ++ [joinSpace (tokens.drop last)])
      else some chunks

/-- A point stored in the vector index: the `SourceChunk` payload built
by `add_source` (embedding vectors are opaque to the orchestration code,
so they are modelled as `List Int`; `extra` is the `**metadata` splat). -/
structure SourcePoint where
  id : String
  url : String
  page_title : String
  content_chunk : String
  chunk_index : Nat
  total_chunks : Nat
  summary : String
  notebook_id : String
  extra : List (String × String)
  vector : List Int
deriving DecidableEq, Repr

/-- State of the external vector index plus an embedding-call counter
(one `openai.embeddings.create` call per chunk in `add_source`). -/
structure StoreState where
  points : List SourcePoint
  embedCalls : Nat
deriving DecidableEq, Repr

/-- One iteration of the `for i, chunk in enumerate(chunks)` loop in
`add_source`: generate an id, build the payload, embed the chunk and
upsert the point.  `idGen` models `uuid.uuid4()` as a supply of ids
indexed by iteration. -/
def upsertChunk (idGen : Nat → String) (embed : String → List Int)
    (url page_title summary notebook_id : String) (meta : List (String × String))
    (total : Nat) (acc : List String × StoreState) (ic : Nat × String) :
    List String × StoreState :=
  let chunk_id := idGen ic.1
  let point : SourcePoint :=
    { id := chunk_id, url := url, page_title := page_title,
      content_chunk := ic.2, chunk_index := ic.1, total_chunks := total,
      summary := summary, notebook_id := notebook_id, extra := meta,
      vector := embed ic.2 }
  (acc.1 ++ [chunk_id],
   { points := acc.2.points ++ [point], embedCalls := acc.2.embedCalls + 1 })

/-- `QdrantSourceStore.add_source`: chunk the content, then for each
chunk generate an id, embed it and upsert it; return the chunk ids.
`none` propagates the `IndexError` from `_chunk_text`. -/
def addSource (chunkSize chunkOverlap : Nat) (idGen : Nat → String)
    (embed : String → List Int) (url page_title content summary notebook_id : String)
    (meta : List (String × String)) (st : StoreState) :
    Option (List String × StoreState) :=
  match chunkText chunkSize chunkOverlap content with
  | none => none
  | some chunks =>
    some (chunks.enum.foldl
      (upsertChunk idGen embed url page_title summary notebook_id meta chunks.length)
      ([], st))

/-- `QdrantSourceStore.delete_by_notebook_id`: delete every point whose
`notebook_id` payload field matches, returning the number deleted (the
vector-index provider's `deleteByFilter → count` interface). -/
def deleteByNotebookId (notebook_id : String) (st : StoreState) : Nat × StoreState :=
  ((st.points.filter (fun p => p.notebook_id = notebook_id)).length,
   { st with points := st.points.filter (fun p => p.notebook_id ≠ notebook_id) })

/-! ### Pipeline Orchestrator: `topic_research_agent.py` -/

/-- A link returned by the link-collector crew (`WebLink` pydantic model). -/
structure WebLink where
  url : String
  title : String
deriving DecidableEq, Repr

/-- The body of the dedup loop in `run_research_crew`:
`if link.url not in [l.url for l in links]: links.append(link)`. -/
def insertLink (links : List WebLink) (link : WebLink) : List WebLink :=
  if link.url ∈ links.map WebLink.url then links else links ++ [link]

/-- The nested dedup loop over all link-collector results. -/
def mergeLinks (results : List (List WebLink)) : List WebLink :=
  results.foldl (fun links result => result.foldl insertLink links) []

/-- First-seen deduplication by url, written from the specification's
words ("exactly one entry per distinct url, ordered by the url's first
appearance"), to be compared with `mergeLinks`. -/
def dedupFirstSeenAux (seen : List String) : List WebLink → List WebLink
  | [] => []
  | l :: ls =>
    if l.url ∈ seen then dedupFirstSeenAux seen ls
    else l :: dedupFirstSeenAux (seen ++ [l.url]) ls

/-- Specification-side first-seen dedup of a flat link list. -/
def dedupFirstSeen (ls : List WebLink) : List WebLink :=
  dedupFirstSeenAux [] ls

/-- An entry of `scraped_data`: url and title from the originating link,
content from the scrape result (`result.raw`). -/
structure ScrapedDoc where
  url : String
  page_title : String
  content : String
deriving DecidableEq, Repr

/-- `asyncio.gather(*tasks)` with the default `return_exceptions=False`:
results are returned positionally aligned with the argument order; if
any task raises, the exception propagates out of `gather` (the model
surfaces the first failing job in list order). -/
def gatherExcept {ε α : Type} : List (Except ε α) → Except ε (List α)
  | [] => Except.ok []
  | Except.error e :: _ => Except.error e
  | Except.ok a :: rest => (gatherExcept rest).map (fun l => a :: l)

/-- The final payload of `run_research_crew`. -/
structure CrewResult where
  blog_post : String
  title : String
  links : List WebLink
  scraped_data : List ScrapedDoc
deriving DecidableEq, Repr

/-- `run_research_crew` from the link-collection results onwards, with
the external agent executors abstracted: `planQueries` is the planning
crew's `search_queries`, `collectLinks` the per-query link-collector
crew (its `gather` succeeding), `scrape` the per-url web-scraping crew
(which may raise), and `synthesize` the research/content crew returning
`(blog_post, title)`.  A scrape exception propagates through `gather`
and the re-raising `except` block, aborting the pipeline. -/
def runResearchCrew (planQueries : List String)
    (collectLinks : String → List WebLink)
    (scrape : String → Except String String)
    (synthesize : List ScrapedDoc → String × String) :
    Except String CrewResult :=
  let links := mergeLinks (planQueries.map collectLinks)
  match gatherExcept (links.map (fun link => scrape link.url)) with
  | Except.error e => Except.error e
  | Except.ok results =>
    let scraped := (links.zip results).map
      (fun p => { url := p.1.url, page_title := p.1.title, content := p.2 : ScrapedDoc })
    let r := synthesize scraped
    Except.ok { blog_post := r.1, title := r.2, links := links, scraped_data := scraped }

/-! ### Task Manager: `task_service.py`

The task and notebook repositories are not part of the sources at hand;
their write operations are modelled from the specification's interface
description (§6) and the stated effect of each call (§4.2): `updateStatus`
sets the status, `updateResult` stores the result and sets the status,
`updateError` records the message and sets the status to failed,
`updateNotebookStatus` sets the processing status and message. -/

/-- `Task.status` values. -/
inductive TaskStatus
  | pending
  | running
  | completed
  | failed
deriving DecidableEq, Repr

/-- `NotebookProcessingStatusValue` values. -/
inductive NotebookStatus
  | not_started
  | in_progress
  | processed
  | error
deriving DecidableEq, Repr

/-- `ResearchSource.source_type` literals. -/
inductive SourceType
  | URL
  | MANUAL
  | FILE
deriving DecidableEq, Repr

/-- `ResearchSource` from `task_models.py`. -/
structure ResearchSource where
  source_type : SourceType
  source_url : Option String
  source_content : Option String
deriving DecidableEq, Repr

/-- Modelled from the spec: the durable Task and Notebook records as
written through the Task Repository and Notebook Repository interfaces
(the repositories' implementations are not among the given sources). -/
structure ExecState where
  taskStatus : TaskStatus
  taskResult : Option CrewResult
  taskError : Option String
  notebookStatus : NotebookStatus
  notebookMessage : String
  notebookTitle : Option String
  notebookTopic : Option String
  notebookOutput : Option String
deriving DecidableEq, Repr

/-- A fresh state: Task created `pending` by `submit`, Notebook untouched. -/
def initExecState : ExecState :=
  { taskStatus := TaskStatus.pending, taskResult := none, taskError := none,
    notebookStatus := NotebookStatus.not_started, notebookMessage := "",
    notebookTitle := none, notebookTopic := none, notebookOutput := none }

/-- Python truthiness of `topic` combined with `topic != ""`. -/
def truthyStr : Option String → Bool
  | none => false
  | some s => s ≠ ""

/-- Python truthiness of `sources and len(sources) > 0`. -/
def truthySources : Option (List ResearchSource) → Bool
  | none => false
  | some l => !l.isEmpty

/-- One pass through the `try` body of `_execute_task`: set the task
running, dispatch on the input shape, and either return normally
(`Except.ok` with the final state) or raise (`Except.error` carrying the
exception message and the state at the point of the raise — only
`run_research_crew` can raise in the body). -/
def execBody (runCrew : String → Except String CrewResult) (topic : Option String)
    (sources : Option (List ResearchSource)) (s : ExecState) :
    Except (String × ExecState) ExecState :=
  let s1 := { s with taskStatus := TaskStatus.running }
  if truthyStr topic && truthySources sources then
    Except.ok s1
  else if truthyStr topic && !truthySources sources then
    match runCrew (topic.getD "") with
    | Except.error e => Except.error (e, s1)
    | Except.ok result =>
      let s2 := { s1 with notebookOutput := some result.blog_post }
      let s3 := { s2 with notebookTitle := some result.title, notebookTopic := topic }
      let s4 := { s3 with taskStatus := TaskStatus.completed, taskResult := some result }
      Except.ok { s4 with notebookStatus := NotebookStatus.processed,
                          notebookMessage := "Research completed successfully" }
  else if truthySources sources then
    Except.ok s1
  else
    Except.ok s1

/-- The final-failure branch of the `except` handler:
`update_task_error(task_id, str(e))` then notebook → error with the
fixed user-facing message. -/
def recordFailure (e : String) (s : ExecState) : ExecState :=
  let s1 := { s with taskStatus := TaskStatus.failed, taskError := some e }
  { s1 with notebookStatus := NotebookStatus.error,
            notebookMessage := "Research failed. Please try again." }

/-- The `while retry_count < max_retries` loop of `_execute_task`,
recursing on the remaining attempt budget `max_retries - retry_count`. -/
def execLoop (runCrew : String → Except String CrewResult) (topic : Option String)
    (sources : Option (List ResearchSource)) : Nat → ExecState → ExecState
  | 0, s => s
  | fuel + 1, s =>
    match execBody runCrew topic sources s with
    | Except.ok s' => s'
    | Except.error (e, s') =>
      if fuel = 0 then recordFailure e s'
      else execLoop runCrew topic sources fuel s'

/-- `max_retries = 1` in `_execute_task`. -/
def maxRetriesDefault : Nat := 1

/-- `TaskManager._execute_task`: notebook → in_progress, then the retry
loop with the default budget. -/
def executeTask (runCrew : String → Except String CrewResult) (topic : Option String)
    (sources : Option (List ResearchSource)) (s : ExecState) : ExecState :=
  let s1 := { s with notebookStatus := NotebookStatus.in_progress,
                     notebookMessage := "Research task started" }
  execLoop runCrew topic sources maxRetriesDefault s1

/-! ### Theorems -/

/-- Whitespace-only character lists tokenize to no tokens, as with
Python's `str.split()`. -/
theorem splitWSAux_all_ws : ∀ l : List Char, (∀ c ∈ l, c.isWhitespace) →
    splitWSAux l [] = [] := by
  intro l
  induction l with
  | nil => intro _; rfl
  | cons c cs ih =>
    intro h
    have hc : c.isWhitespace := h c (List.mem_cons_self c cs)
    simpa [splitWSAux, hc] using ih (fun x hx => h x (List.mem_cons_of_mem c hx))

/-- `range(0, 0, step)` is empty. -/
theorem pyRange_zero (step : Nat) : pyRange 0 step = [] := by
  rcases Nat.eq_zero_or_pos step with h | h
  · subst h; rfl
  · unfold pyRange
    rw [show (0 + step - 1) / step = 0 from Nat.div_eq_of_lt (by omega)]
    rfl

/-- C1: with `chunkSize = 5` and `chunkOverlap = 2`, `_chunk_text` does
NOT keep every content token: on the 4-token content `"a b c d"` the
sliding pass emits no full window, and the remainder step starts from
`chunk_starts[-1] = 3`, so the only chunk produced is `"d"` and the
tokens `a`, `b`, `c` appear in no chunk — contradicting the specified
"no content token is omitted across all chunks combined". -/
theorem chunkText_drops_tokens :
    chunkText 5 2 "a b c d" = some ["d"] ∧
    "a" ∈ pySplit "a b c d" ∧
    ∀ chunk ∈ ["d"], "a" ∉ pySplit chunk := by decide

/-- C6: `add_source` with empty content returns an empty chunk-id list
and leaves the store state untouched: no embedding calls are made and
no points are upserted. -/
theorem addSource_empty_content (chunkSize chunkOverlap : Nat) (idGen : Nat → String)
    (embed : String → List Int) (url page_title summary notebook_id : String)
    (meta : List (String × String)) (st : StoreState) :
    addSource chunkSize chunkOverlap idGen embed url page_title "" summary notebook_id
      meta st = some ([], st) := by
  simp [addSource, chunkText]

/-- C9: for any non-empty but whitespace-only content, `_chunk_text`
raises `IndexError` (modelled as `none`): the empty-result guard only
covers the empty string, tokenization yields no tokens, `chunk_starts`
is empty and `chunk_starts[-1]` is out of range. -/
theorem chunkText_whitespace_only (chunkSize chunkOverlap : Nat) (s : String)
    (hne : s ≠ "") (hws : ∀ c ∈ s.data, c.isWhitespace) :
    chunkText chunkSize chunkOverlap s = none := by
  have hsplit : pySplit s = [] := splitWSAux_all_ws s.data hws
  simp [chunkText, hne, pySplit] at hsplit ⊢
  simp [hsplit, pyRange_zero]

/-- Witness for C9 at the single-space string. -/
theorem chunkText_whitespace_only_witness :
    (" " : String) ≠ "" ∧ chunkText 5 2 " " = none :=
  ⟨by decide, chunkText_whitespace_only 5 2 " " (by decide) (by decide)⟩

/-- C8: `delete_by_notebook_id` returns the number of points tagged with
the notebook id, its resulting state keeps exactly the points of other
notebooks, and it is idempotent: a second call on the resulting state
returns `0` and changes nothing. -/
theorem deleteByNotebook_count_and_idempotent (notebook_id : String) (st : StoreState) :
    (deleteByNotebookId notebook_id st).1 =
      (st.points.filter (fun p => p.notebook_id = notebook_id)).length ∧
    (deleteByNotebookId notebook_id st).2.points =
      st.points.filter (fun p => p.notebook_id ≠ notebook_id) ∧
    deleteByNotebookId notebook_id (deleteByNotebookId notebook_id st).2 =
      (0, (deleteByNotebookId notebook_id st).2) := by
  have key : ∀ l : List SourcePoint,
      (l.filter (fun p => p.notebook_id ≠ notebook_id)).filter
          (fun p => p.notebook_id = notebook_id) = [] ∧
      (l.filter (fun p => p.notebook_id ≠ notebook_id)).filter
          (fun p => p.notebook_id ≠ notebook_id) =
        l.filter (fun p => p.notebook_id ≠ notebook_id) := by
    intro l
    induction l with
    | nil => exact ⟨rfl, rfl⟩
    | cons p l ih =>
      by_cases hp : p.notebook_id = notebook_id <;>
        simp [List.filter_cons, hp, ih.1, ih.2]
  refine ⟨rfl, rfl, ?_⟩
  simp [deleteByNotebookId, (key st.points).1, (key st.points).2]

/-- The dedup loop body, folded over any suffix, equals the accumulator
followed by spec-side first-seen dedup against the accumulated urls. -/
theorem foldl_insertLink : ∀ (xs acc : List WebLink),
    xs.foldl insertLink acc = acc ++ dedupFirstSeenAux (acc.map WebLink.url) xs := by
  intro xs
  induction xs with
  | nil => intro acc; simp [dedupFirstSeenAux]
  | cons x xs ih =>
    intro acc
    by_cases h : x.url ∈ acc.map WebLink.url
    · simp [List.foldl_cons, insertLink, h, dedupFirstSeenAux, ih]
    · rw [List.foldl_cons, insertLink, if_neg h, ih (acc ++ [x])]
      simp [dedupFirstSeenAux, h, List.map_append]

/-- Membership under spec-side first-seen dedup: a url survives iff it
occurs in the input and was not already seen. -/
theorem mem_url_dedupFirstSeenAux (u : String) : ∀ (xs : List WebLink) (seen : List String),
    (u ∈ (dedupFirstSeenAux seen xs).map WebLink.url) ↔
      (u ∈ xs.map WebLink.url ∧ u ∉ seen) := by
  intro xs
  induction xs with
  | nil => intro seen; simp [dedupFirstSeenAux]
  | cons x xs ih =>
    intro seen
    by_cases h : x.url ∈ seen
    · rw [dedupFirstSeenAux, if_pos h, ih seen]
      simp only [List.map_cons, List.mem_cons]
      constructor
      · rintro ⟨hm, hn⟩
        exact ⟨Or.inr hm, hn⟩
      · rintro ⟨hm | hm, hn⟩
        · subst hm; exact absurd h hn
        · exact ⟨hm, hn⟩
    · rw [dedupFirstSeenAux, if_neg h]
      simp only [List.map_cons, List.mem_cons, ih (seen ++ [x.url]), List.mem_append,
        List.mem_singleton]
      constructor
      · rintro (rfl | ⟨hm, hn⟩)
        · exact ⟨Or.inl rfl, h⟩
        · exact ⟨Or.inr hm, fun hs => hn (Or.inl hs)⟩
      · rintro ⟨rfl | hm, hn⟩
        · exact Or.inl rfl
        · by_cases hx : u = x.url
          · exact Or.inl hx
          · refine Or.inr ⟨hm, ?_⟩
            rintro (hs | hs | hs)
            · exact hn hs
            · exact hx hs
            · cases hs

/-- The urls surviving spec-side first-seen dedup are pairwise distinct. -/
theorem nodup_url_dedupFirstSeenAux : ∀ (xs : List WebLink) (seen : List String),
    ((dedupFirstSeenAux seen xs).map WebLink.url).Nodup := by
  intro xs
  induction xs with
  | nil => intro seen; simp [dedupFirstSeenAux]
  | cons x xs ih =>
    intro seen
    by_cases h : x.url ∈ seen
    · simpa [dedupFirstSeenAux, h] using ih seen
    · rw [dedupFirstSeenAux, if_neg h]
      simp only [List.map_cons]
      refine List.nodup_cons.mpr ⟨?_, ih _⟩
      intro hmem
      rcases (mem_url_dedupFirstSeenAux x.url xs (seen ++ [x.url])).mp hmem with ⟨_, hns⟩
      exact hns (by simp)

/-- C4: the Collect-Links merge equals spec-side first-seen
deduplication of the concatenated per-query results: at most one entry
per distinct url, every input url represented, ordered by the url's
first appearance across the input lists in their given order. -/
theorem mergeLinks_first_seen_dedup (results : List (List WebLink)) :
    mergeLinks results = dedupFirstSeen results.flatten ∧
    ((mergeLinks results).map WebLink.url).Nodup ∧
    ∀ u, u ∈ (mergeLinks results).map WebLink.url ↔
      u ∈ results.flatten.map WebLink.url := by
  have hm : mergeLinks results = dedupFirstSeen results.flatten := by
    rw [mergeLinks, ← List.foldl_flatten, foldl_insertLink]
    simp [dedupFirstSeen]
  refine ⟨hm, ?_, ?_⟩
  · rw [hm, dedupFirstSeen]
    exact nodup_url_dedupFirstSeenAux _ _
  · intro u
    rw [hm, dedupFirstSeen, mem_url_dedupFirstSeenAux]
    simp

/-- `gather` over uniformly succeeding jobs returns the results in
argument order. -/
theorem gatherExcept_ok {ε α β : Type} (g : β → α) (l : List β) :
    gatherExcept (ε := ε) (l.map (fun b => Except.ok (g b))) = Except.ok (l.map g) := by
  induction l with
  | nil => rfl
  | cons b l ih => simp [gatherExcept, ih, Except.map]

/-- Zipping a list with its own image lists the pairs elementwise. -/
theorem zip_map_self {α β : Type} (l : List α) (g : α → β) :
    l.zip (l.map g) = l.map (fun a => (a, g a)) := by
  induction l with
  | nil => rfl
  | cons a l ih => simp [ih]

/-- When every scrape succeeds, `run_research_crew` returns the payload
whose `scraped_data` is the canonical link list mapped through the
scrape oracle. -/
theorem runResearchCrew_all_ok (queries : List String)
    (collectLinks : String → List WebLink) (f : String → String)
    (synthesize : List ScrapedDoc → String × String) :
    runResearchCrew queries collectLinks (fun u => Except.ok (f u)) synthesize =
      Except.ok
        { blog_post := (synthesize ((mergeLinks (queries.map collectLinks)).map
            (fun l => { url := l.url, page_title := l.title, content := f l.url }))).1,
          title := (synthesize ((mergeLinks (queries.map collectLinks)).map
            (fun l => { url := l.url, page_title := l.title, content := f l.url }))).2,
          links := mergeLinks (queries.map collectLinks),
          scraped_data := (mergeLinks (queries.map collectLinks)).map
            (fun l => { url := l.url, page_title := l.title, content := f l.url }) } := by
  have hg := gatherExcept_ok (ε := String) (fun l : WebLink => f l.url)
    (mergeLinks (queries.map collectLinks))
  have hz := zip_map_self (mergeLinks (queries.map collectLinks))
    (fun l : WebLink => f l.url)
  simp [runResearchCrew, hg, hz, List.map_map, Function.comp_def]

/-- C10: with every scrape succeeding, the orchestrator completes and
its `scraped_data` is positionally aligned with the canonical
(first-seen deduplicated) link list: same length, and the i-th document
carries the i-th link's url and title with that url's scraped content. -/
theorem scrapedData_aligned_with_links (queries : List String)
    (collectLinks : String → List WebLink) (f : String → String)
    (synthesize : List ScrapedDoc → String × String) :
    ∃ r : CrewResult,
      runResearchCrew queries collectLinks (fun u => Except.ok (f u)) synthesize =
        Except.ok r ∧
      r.scraped_data.length = (mergeLinks (queries.map collectLinks)).length ∧
      ∀ i : Nat, r.scraped_data.get? i =
        ((mergeLinks (queries.map collectLinks)).get? i).map
          (fun l => { url := l.url, page_title := l.title, content := f l.url }) := by
  refine ⟨_, runResearchCrew_all_ok queries collectLinks f synthesize, ?_, ?_⟩
  · simp
  · intro i
    simp [List.get?_map]

/-- `gather` with default `return_exceptions=False` raises as soon as
any job raised. -/
theorem gatherExcept_error {ε α : Type} : ∀ jobs : List (Except ε α),
    (∃ x ∈ jobs, ∃ e, x = Except.error e) →
    ∃ e, gatherExcept jobs = Except.error e := by
  intro jobs
  induction jobs with
  | nil => rintro ⟨x, hx, _⟩; cases hx
  | cons j rest ih =>
    intro h
    cases j with
    | error e0 => exact ⟨e0, rfl⟩
    | ok a =>
      obtain ⟨x, hx, e, rfl⟩ := h
      rcases List.mem_cons.mp hx with h1 | h2
      · exact absurd h1 (by simp)
      · obtain ⟨e', he'⟩ := ih ⟨_, h2, e, rfl⟩
        exact ⟨e', by simp [gatherExcept, he', Except.map]⟩

/-- Fixed link-collector output used in the concrete Scrape-stage runs. -/
def cexLinks : List WebLink :=
  [{ url := "u1", title := "t1" }, { url := "u2", title := "t2" }]

/-- C2 counterexample: a canonical set of two links where scraping `u1`
fails and scraping `u2` succeeds; `asyncio.gather` propagates the
exception and the re-raising `except` block aborts the pipeline with it,
so the Synthesize stage is never reached and no result is produced —
the failed link is not dropped. -/
theorem runResearchCrew_partial_scrape_failure_aborts :
    runResearchCrew ["q"] (fun _ => cexLinks)
      (fun u => if u = "u1" then Except.error "boom" else Except.ok "content")
      (fun _ => ("blog", "title")) = Except.error "boom" := by
  rfl

/-- C2 amended: if any link of the canonical set fails to scrape, the
pipeline aborts with a scrape error instead of completing; documents of
successful scrapes reach Synthesize only when every scrape succeeds. -/
theorem runResearchCrew_aborts_on_any_scrape_failure (queries : List String)
    (collectLinks : String → List WebLink) (scrape : String → Except String String)
    (synthesize : List ScrapedDoc → String × String)
    (h : ∃ l ∈ mergeLinks (queries.map collectLinks), ∃ e, scrape l.url = Except.error e) :
    ∃ e, runResearchCrew queries collectLinks scrape synthesize = Except.error e := by
  obtain ⟨l, hl, e, he⟩ := h
  have hmem : Except.error e ∈
      (mergeLinks (queries.map collectLinks)).map (fun link => scrape link.url) :=
    List.mem_map.mpr ⟨l, hl, he⟩
  obtain ⟨e', hg⟩ := gatherExcept_error _ ⟨_, hmem, e, rfl⟩
  exact ⟨e', by simp [runResearchCrew, hg]⟩

/-- Witness for the amended C2 at the two-link canonical set with one
failing scrape. -/
theorem runResearchCrew_aborts_on_any_scrape_failure_witness :
    ∃ e, runResearchCrew ["q"] (fun _ => cexLinks)
      (fun u => if u = "u1" then Except.error "boomW" else Except.ok "content")
      (fun _ => ("blog", "title")) = Except.error e :=
  runResearchCrew_aborts_on_any_scrape_failure ["q"] (fun _ => cexLinks)
    (fun u => if u = "u1" then Except.error "boomW" else Except.ok "content")
    (fun _ => ("blog", "title"))
    ⟨{ url := "u1", title := "t1" }, by decide, "boomW", by rfl⟩

/-- C3 counterexample: invoking `_execute_task` with both a topic and a
non-empty source list hits the unimplemented branch, which logs and
returns: the Task is left in status `running` (neither completed nor
failed) and the Notebook in `in_progress` (neither processed nor error),
so the claimed terminal-state pair does not hold for every combination
of topic and sources. -/
theorem executeTask_nonterminal_on_topic_and_sources :
    (executeTask (fun _ => Except.error "boom") (some "quantum batteries")
        (some [{ source_type := SourceType.URL, source_url := some "u",
                 source_content := none }]) initExecState).taskStatus =
      TaskStatus.running ∧
    (executeTask (fun _ => Except.error "boom") (some "quantum batteries")
        (some [{ source_type := SourceType.URL, source_url := some "u",
                 source_content := none }]) initExecState).notebookStatus =
      NotebookStatus.in_progress := by decide

/-- C3 amended: on the supported dispatch path — a non-empty topic and
no sources — `_execute_task` resolves without an escaping exception
(the embedding is a total function) and the Task/Notebook statuses end
in exactly one of the terminal pairs (completed, processed) or
(failed, error); the unsupported combinations instead return leaving the
Task `running` and the Notebook `in_progress`. -/
theorem executeTask_terminal_on_topic_only (runCrew : String → Except String CrewResult)
    (t : String) (ht : t ≠ "") (sources : Option (List ResearchSource))
    (hs : truthySources sources = false) (st : ExecState) :
    ((executeTask runCrew (some t) sources st).taskStatus = TaskStatus.completed ∧
     (executeTask runCrew (some t) sources st).notebookStatus = NotebookStatus.processed) ∨
    ((executeTask runCrew (some t) sources st).taskStatus = TaskStatus.failed ∧
     (executeTask runCrew (some t) sources st).notebookStatus = NotebookStatus.error) := by
  cases hr : runCrew t with
  | ok r =>
    left
    simp [executeTask, execLoop, maxRetriesDefault, execBody, truthyStr, ht, hs, hr]
  | error e =>
    right
    simp [executeTask, execLoop, maxRetriesDefault, execBody, truthyStr, ht, hs, hr,
      recordFailure]

/-- Witness for the amended C3: a failing pipeline with topic "t" and no
sources ends in a terminal pair. -/
theorem executeTask_terminal_on_topic_only_witness :
    ((executeTask (fun _ => Except.error "x") (some "t") none initExecState).taskStatus =
        TaskStatus.completed ∧
     (executeTask (fun _ => Except.error "x") (some "t") none initExecState).notebookStatus =
        NotebookStatus.processed) ∨
    ((executeTask (fun _ => Except.error "x") (some "t") none initExecState).taskStatus =
        TaskStatus.failed ∧
     (executeTask (fun _ => Except.error "x") (some "t") none initExecState).notebookStatus =
        NotebookStatus.error) :=
  executeTask_terminal_on_topic_only (fun _ => Except.error "x") "t" (by decide) none
    (by rfl) initExecState

/-- C5: the default retry budget of `_execute_task` is `max_retries = 1`
(one total attempt, no automatic retry: the `except` handler increments
`retry_count` to 1, which is not `< max_retries`, so it records the
failure instead of looping), and on pipeline failure the internal error
message is recorded on the Task with status `failed` while the Notebook
is set to `error` with the fixed user-facing message
"Research failed. Please try again.", which is not derived from — and,
whenever the internal detail differs from that constant, not equal to —
the internal error detail. -/
theorem executeTask_failure_recording (runCrew : String → Except String CrewResult)
    (t e : String) (ht : t ≠ "") (hf : runCrew t = Except.error e)
    (he : e ≠ "Research failed. Please try again.") (st : ExecState) :
    maxRetriesDefault = 1 ∧
    (executeTask runCrew (some t) none st).taskStatus = TaskStatus.failed ∧
    (executeTask runCrew (some t) none st).taskError = some e ∧
    (executeTask runCrew (some t) none st).notebookStatus = NotebookStatus.error ∧
    (executeTask runCrew (some t) none st).notebookMessage =
      "Research failed. Please try again." ∧
    (executeTask runCrew (some t) none st).notebookMessage ≠ e := by
  have hx : executeTask runCrew (some t) none st =
      recordFailure e { st with notebookStatus := NotebookStatus.in_progress,
                                notebookMessage := "Research task started",
                                taskStatus := TaskStatus.running } := by
    simp [executeTask, execLoop, maxRetriesDefault, execBody, truthyStr, truthySources,
      ht, hf]
  refine ⟨rfl, ?_, ?_, ?_, ?_, ?_⟩ <;> rw [hx] <;> simp [recordFailure]
  exact Ne.symm he

/-- Witness for C5 at a concrete failing pipeline. -/
theorem executeTask_failure_recording_witness :
    maxRetriesDefault = 1 ∧
    (executeTask (fun _ => Except.error "boomT") (some "t") none initExecState).taskStatus =
      TaskStatus.failed ∧
    (executeTask (fun _ => Except.error "boomT") (some "t") none initExecState).taskError =
      some "boomT" ∧
    (executeTask (fun _ => Except.error "boomT") (some "t") none initExecState).notebookStatus =
      NotebookStatus.error ∧
    (executeTask (fun _ => Except.error "boomT") (some "t") none initExecState).notebookMessage =
      "Research failed. Please try again." ∧
    (executeTask (fun _ => Except.error "boomT") (some "t") none initExecState).notebookMessage ≠
      "boomT" :=
  executeTask_failure_recording (fun _ => Except.error "boomT") "t" "boomT" (by decide)
    (by rfl) (by decide) initExecState

/-- The payload built for one enumerated chunk in `add_source`. -/
def mkChunkPoint (idGen : Nat → String) (embed : String → List Int)
    (url page_title summary notebook_id : String) (meta : List (String × String))
    (total : Nat) (ic : Nat × String) : SourcePoint :=
  { id := idGen ic.1, url := url, page_title := page_title, content_chunk := ic.2,
    chunk_index := ic.1, total_chunks := total, summary := summary,
    notebook_id := notebook_id, extra := meta, vector := embed ic.2 }

/-- Characterization of the `add_source` upsert loop: it appends one id
and one point per enumerated chunk, in order, and bumps the embedding
counter once per chunk. -/
theorem foldl_upsertChunk (idGen : Nat → String) (embed : String → List Int)
    (url page_title summary notebook_id : String) (meta : List (String × String))
    (total : Nat) : ∀ (l : List (Nat × String)) (ids0 : List String) (st0 : StoreState),
    l.foldl (upsertChunk idGen embed url page_title summary notebook_id meta total)
        (ids0, st0) =
      (ids0 ++ l.map (fun ic => idGen ic.1),
       { points := st0.points ++
           l.map (mkChunkPoint idGen embed url page_title summary notebook_id meta total),
         embedCalls := st0.embedCalls + l.length }) := by
  intro l
  induction l with
  | nil => intro ids0 st0; simp
  | cons ic l ih =>
    intro ids0 st0
    rw [List.foldl_cons, upsertChunk, ih]
    simp [mkChunkPoint, List.append_assoc]
    omega

/-- The invariants the upserted group and the returned ids must satisfy:
`chunk_index` runs 0,1,2,... over the group, `total_chunks` equals the
group size everywhere, ids align positionally with the points, and ids
are pairwise distinct. -/
def chunkGroupOk (ids : List String) (newPts : List SourcePoint) : Prop :=
  newPts.map SourcePoint.chunk_index = List.range newPts.length ∧
  (∀ p ∈ newPts, p.total_chunks = newPts.length) ∧
  newPts.map SourcePoint.id = ids ∧
  ids.Nodup

/-- C7: whenever `add_source` succeeds, the points it upserted (the ones
appended to the collection) carry strictly increasing `chunk_index`
0,1,2,..., a constant `total_chunks` equal to the group size, freshly
generated identifiers that are pairwise distinct (given a non-colliding
id supply, as `uuid4` is), and the returned identifier list is exactly
the group's ids in chunk order. -/
theorem addSource_group_invariants (chunkSize chunkOverlap : Nat) (idGen : Nat → String)
    (embed : String → List Int) (url page_title content summary notebook_id : String)
    (meta : List (String × String)) (st : StoreState) (ids : List String)
    (st' : StoreState) (hinj : Function.Injective idGen)
    (h : addSource chunkSize chunkOverlap idGen embed url page_title content summary
      notebook_id meta st = some (ids, st')) :
    chunkGroupOk ids (st'.points.drop st.points.length) := by
  rcases hc : chunkText chunkSize chunkOverlap content with _ | chunks
  · simp only [addSource, hc] at h
    exact Option.noConfusion h
  · simp only [addSource, hc, foldl_upsertChunk, List.nil_append, Option.some.injEq,
      Prod.mk.injEq] at h
    obtain ⟨hids, hst⟩ := h
    subst hids
    subst hst
    simp only [chunkGroupOk, List.drop_left]
    have hlen : (chunks.enum.map
        (mkChunkPoint idGen embed url page_title summary notebook_id meta
          chunks.length)).length = chunks.length := by
      simp
    have hfst : chunks.enum.map (fun ic => ic.1) = List.range chunks.length :=
      List.enum_map_fst chunks
    refine ⟨?_, ?_, ?_, ?_⟩
    · rw [hlen, List.map_map]
      simp only [mkChunkPoint, Function.comp_def]
      exact hfst
    · intro p hp
      rw [hlen]
      obtain ⟨ic, _, rfl⟩ := List.mem_map.mp hp
      rfl
    · rw [List.map_map]
      simp [mkChunkPoint, Function.comp_def]
    · have : chunks.enum.map (fun ic => idGen ic.1) =
          (List.range chunks.length).map idGen := by
        rw [← hfst, List.map_map]
        rfl
      rw [this]
      exact (List.nodup_range _).map hinj

/-- A concrete collision-free id supply standing in for `uuid4`. -/
def idGenW : Nat → String := fun n => String.mk (List.replicate n 'a')

/-- The concrete id supply is injective. -/
theorem idGenW_injective : Function.Injective idGenW := by
  intro a b h
  have h2 := congrArg (fun s => s.data.length) h
  simpa [idGenW] using h2

/-- The store state after ingesting the 6-token content
`"a b c d e f"` (chunks `"a b c d e"` and `"d e f"`) into an empty
store. -/
def stW : StoreState :=
  { points :=
      [{ id := "", url := "u", page_title := "t", content_chunk := "a b c d e",
         chunk_index := 0, total_chunks := 2, summary := "s", notebook_id := "nb",
         extra := [], vector := [] },
       { id := "a", url := "u", page_title := "t", content_chunk := "d e f",
         chunk_index := 1, total_chunks := 2, summary := "s", notebook_id := "nb",
         extra := [], vector := [] }],
    embedCalls := 2 }

/-- Witness for C7 at a concrete two-chunk ingestion. -/
theorem addSource_group_invariants_witness :
    chunkGroupOk ["", "a"] (stW.points.drop (StoreState.mk [] 0).points.length) :=
  addSource_group_invariants 5 2 idGenW (fun _ => []) "u" "t" "a b c d e f" "s" "nb"
    [] (StoreState.mk [] 0) ["", "a"] stW idGenW_injective (by decide)

end Decipher
